import Mathlib

/-!
Shallow embedding of the m4sensorhub panic-recovery subsystem and the
init-call registry of the kernel-omap repository, with theorems checking
the natural-language specification against the code.

Sources embedded:
* the panic subsystem (`m4sensorhub_panic_register`, `m4sensorhub_panic_unregister`,
  `m4sensorhub_panic_process`) together with the `m4sensorhub_panichdl_index`
  enumeration from the driver header;
* the init-call registry (`m4sensorhub_register_initcall`,
  `m4sensorhub_unregister_initcall`, and the drain loop of
  `m4sensorhub_initialize`), modelled with an explicit heap so that the
  pointer manipulation (including `kfree`) is represented faithfully.
-/

namespace M4SensorHub

/-! ## Constants from the source -/

/-- Reserved bank value for the panic protocol (`PANIC_BANK 0xFF`). -/
def PANIC_BANK : Nat := 0xFF

/-- Panic handoff command byte (`PANIC_CMD_CHECK 0xCD`). -/
def PANIC_CMD_CHECK : Nat := 0xCD

/-- Panic handoff magic response (`PANIC_RESP_CHECK 0xDeadBeef`). -/
def PANIC_RESP_CHECK : Nat := 0xDeadBeef

/-- Linux error number `EINVAL`. -/
def EINVAL : Int := 22

/-- Linux error number `EPERM`. -/
def EPERM : Int := 1

/-- First slot of `enum m4sensorhub_panichdl_index`. -/
def PANICHDL_DISPLAY_RESTORE : Nat := 0

/-- Last slot of `enum m4sensorhub_panichdl_index`; kept last so IRQ
restoration runs after all feature restorations. -/
def PANICHDL_IRQ_RESTORE : Nat := 1

/-- Number of panic-handler slots (`PANICHDL_MAX = PANICHDL_IRQ_RESTORE+1`). -/
def PANICHDL_MAX : Nat := PANICHDL_IRQ_RESTORE + 1

/-! ## Panic registry state

Function pointers and `void *` context pointers are modelled as natural
numbers naming the pointer value; `none` models a NULL callback pointer. -/

/-- One entry of `struct m4sensorhub_panic_callback`: a callback function
pointer (NULL modelled as `none`) and its context pointer. -/
structure PanicCallback where
  callback : Option Nat
  data : Nat
  deriving DecidableEq

/-- The `funcs` array of `struct m4sensorhub_panicdata`, indexed by the
priority enum; the embedded operations only ever access indices below
`PANICHDL_MAX`, matching the bounds of the C array. -/
structure PanicData where
  funcs : Nat → PanicCallback

/-- Operating mode of the hub (`enum m4sensorhub_mode`). -/
inductive M4Mode where
  | UNINITIALIZED
  | BOOTMODE
  | NORMALMODE
  | FACTORYMODE
  deriving DecidableEq

/-- The fields of `struct m4sensorhub_data` relevant to the panic subsystem:
`panicdata` is NULL (`none`) before `m4sensorhub_panic_init` and after
`m4sensorhub_panic_shutdown`. -/
structure M4State where
  panicdata : Option PanicData
  mode : M4Mode

/-! ## m4sensorhub_panic_register / m4sensorhub_panic_unregister

The outer `Option` of the result models whether the call completes: `none`
means the function dereferenced a NULL `panicdata` pointer (a crash), and
`some (retval, m4)` the C return value paired with the updated struct. -/

/-- Embedding of `m4sensorhub_panic_register`: validates the struct pointer,
the index bound and the callback pointer (`-EINVAL`), then dereferences
`panicdata` unconditionally; an occupied slot fails with `-EPERM` and is
left unchanged, an empty slot receives the pair and the call returns 0. -/
def m4sensorhub_panic_register (m4 : Option M4State) (index : Nat)
    (cb_func : Option Nat) (data : Nat) : Option (Int × Option M4State) :=
  match m4 with
  | none => some (-EINVAL, none)
  | some m =>
    if PANICHDL_MAX ≤ index then some (-EINVAL, some m)
    else if cb_func = none then some (-EINVAL, some m)
    else
      match m.panicdata with
      | none => none
      | some pd =>
        if (pd.funcs index).callback = none then
          let pd2 : PanicData :=
            ⟨Function.update pd.funcs index ⟨cb_func, data⟩⟩
          some (0, some { m with panicdata := some pd2 })
        else
          some (-EPERM, some m)

/-- Embedding of `m4sensorhub_panic_unregister`: validates the struct pointer
and the index bound (`-EINVAL`), then dereferences `panicdata`
unconditionally and clears the slot (callback and data both NULL),
returning 0 whether or not the slot was occupied. -/
def m4sensorhub_panic_unregister (m4 : Option M4State) (index : Nat) :
    Option (Int × Option M4State) :=
  match m4 with
  | none => some (-EINVAL, none)
  | some m =>
    if PANICHDL_MAX ≤ index then some (-EINVAL, some m)
    else
      match m.panicdata with
      | none => none
      | some pd =>
        let pd2 : PanicData := ⟨Function.update pd.funcs index ⟨none, 0⟩⟩
        some (0, some { m with panicdata := some pd2 })

/-! ## m4sensorhub_panic_process

The function's externally visible behaviour is recorded as a trace of
actions in program order.  `invoke i cb d` records the call
`callback(m4sensorhub, data)` of the slot at priority index `i` whose stored
callback pointer is `cb` and stored context is `d` (the channel handle
passed is the single `m4sensorhub` struct in scope).  `BUG()` terminates the
kernel thread, so nothing follows `bug` in a trace. -/

/-- One observable action of `m4sensorhub_panic_process`. -/
inductive PAction where
  | lock
  | busCheck (bank cmd : Nat)
  | unlock
  | hwReset
  | msleep (ms : Nat)
  | loadFirmware
  | bug
  | invoke (index cb data : Nat)
  deriving DecidableEq

/-- The recovery walk over the `funcs` array: indices in ascending order,
invoking exactly the populated slots with their stored context. -/
def panicInvocations (pd : PanicData) : List PAction :=
  (List.range PANICHDL_MAX).filterMap fun i =>
    match pd.funcs i with
    | ⟨none, _⟩ => none
    | ⟨some cb, d⟩ => some (PAction.invoke i cb d)

/-- Embedding of `m4sensorhub_panic_process`.  `busRet` is the byte count
returned by `m4sensorhub_i2c_write_read` for the panic-check command and
`busData` the 4-byte value read back; `fwRet` is the result of
`m4sensorhub_load_firmware`.  The function returns its action trace and the
struct, which the function body itself never mutates (hardware reset and
firmware reload are external operations recorded as trace actions). -/
def m4sensorhub_panic_process (m4 : Option M4State) (busRet : Int)
    (busData : Nat) (fwRet : Int) : List PAction × Option M4State :=
  match m4 with
  | none => ([], none)
  | some m =>
    match m.panicdata with
    | none => ([], some m)
    | some pd =>
      if busRet ≠ (4 : Int) ∨ busData ≠ PANIC_RESP_CHECK then
        ([PAction.lock, PAction.busCheck PANIC_BANK PANIC_CMD_CHECK,
          PAction.unlock], some m)
      else if fwRet < 0 then
        ([PAction.lock, PAction.busCheck PANIC_BANK PANIC_CMD_CHECK,
          PAction.hwReset, PAction.msleep 100, PAction.loadFirmware,
          PAction.bug], some m)
      else
        ([PAction.lock, PAction.busCheck PANIC_BANK PANIC_CMD_CHECK,
          PAction.hwReset, PAction.msleep 100, PAction.loadFirmware,
          PAction.unlock] ++ panicInvocations pd, some m)

/-! ## Init-call registry

The singly linked list of `struct init_call` nodes is modelled with an
explicit heap: every `kzalloc` takes a fresh address from a counter, and
`kfree` marks the address freed while the cell keeps its last contents (so
reads through dangling pointers return the stale value, as they typically
do on real hardware, and use-after-free behaviour is observable). -/

/-- One `struct init_call` node: callback pointer, context pointer, and the
address of the next node (`none` models the NULL terminator). -/
structure InitCallNode where
  initcb : Nat
  pdata : Nat
  next : Option Nat
  deriving DecidableEq

/-- The registry state: the allocated cells (an association list from
address to node contents, retained after free), the chronological list of
freed addresses, the allocation counter, and the static `inithead` list
head pointer. -/
structure InitState where
  heap : List (Nat × InitCallNode)
  freed : List Nat
  nextAddr : Nat
  inithead : Option Nat
  deriving DecidableEq

/-- The state before any registration: empty heap, NULL `inithead`. -/
def initState : InitState := ⟨[], [], 0, none⟩

/-- Dereference a node pointer. -/
def hread (st : InitState) (a : Nat) : Option InitCallNode :=
  (st.heap.find? fun p => p.1 == a).map fun p => p.2

/-- Store into the `next` field of the node at address `a`. -/
def hwriteNext (st : InitState) (a : Nat) (nxt : Option Nat) : InitState :=
  { st with heap := st.heap.map fun p =>
      if p.1 = a then (p.1, { p.2 with next := nxt }) else p }

/-- Mark address `a` freed (`kfree`); the cell contents are retained. -/
def kfree (st : InitState) (a : Nat) : InitState :=
  { st with freed := st.freed ++ [a] }

/-- Embedding of `m4sensorhub_register_initcall`: allocate a node, fill in
the callback and context, link it in front of the current list (`next` is
NULL when the list was empty, otherwise the old head) and move `inithead`
to it.  Allocation is modelled as always succeeding. -/
def m4sensorhub_register_initcall (st : InitState) (initfunc pdata : Nat) :
    Int × InitState :=
  let a := st.nextAddr
  let nxt : Option Nat := if st.inithead = none then none else st.inithead
  let inc : InitCallNode := ⟨initfunc, pdata, nxt⟩
  (0, ⟨(a, inc) :: st.heap, st.freed, a + 1, some a⟩)

/-- The traversal loop of `m4sensorhub_unregister_initcall`.  On a match the
node is unlinked (from `inithead` when it is the head, otherwise through
`prev->next`), then freed; the loop update `prev = node, node = node->next`
is performed afterwards, so `node->next` is re-read from the just-freed
cell and `prev` is left pointing at the freed node, exactly as in the
source. -/
def unregisterLoop (f : Nat) :
    InitState → Option Nat → Option Nat → Nat → InitState
  | st, _, _, 0 => st
  | st, none, _, _ + 1 => st
  | st, some a, prev, fuel + 1 =>
    match hread st a with
    | none => st
    | some n =>
      if n.initcb = f then
        let st1 :=
          if st.inithead = some a then { st with inithead := n.next }
          else
            match prev with
            | some p => hwriteNext st p n.next
            | none => st
        let st2 := kfree st1 a
        let node2 :=
          match hread st2 a with
          | some n2 => n2.next
          | none => none
        unregisterLoop f st2 node2 (some a) fuel
      else
        unregisterLoop f st n.next (some a) fuel

/-- Embedding of `m4sensorhub_unregister_initcall`: walk the list from
`inithead`, removing and freeing every node whose callback pointer equals
`initfunc`.  The fuel bound covers any chain over the allocated cells. -/
def m4sensorhub_unregister_initcall (st : InitState) (initfunc : Nat) :
    InitState :=
  unregisterLoop initfunc st st.inithead none (st.heap.length + 1)

/-- The drain loop of `m4sensorhub_initialize`: walk the list from
`inithead`, invoke each node's callback with its context (recorded in
`invoked`; `ret` gives each callback's return value), log a negative
return without stopping, then free the node after reading its `next`
pointer.  `inithead` itself is never written. -/
def drainLoop (ret : Nat → Nat → Int) :
    InitState → Option Nat → List (Nat × Nat) → List Int → Nat →
    InitState × List (Nat × Nat) × List Int
  | st, _, invoked, errs, 0 => (st, invoked, errs)
  | st, none, invoked, errs, _ + 1 => (st, invoked, errs)
  | st, some a, invoked, errs, fuel + 1 =>
    match hread st a with
    | none => (st, invoked, errs)
    | some n =>
      let err := ret n.initcb n.pdata
      let errs2 := if err < 0 then errs ++ [err] else errs
      drainLoop ret (kfree st a) n.next
        (invoked ++ [(n.initcb, n.pdata)]) errs2 fuel

/-- Embedding of the init-call drain performed by `m4sensorhub_initialize`
after a successful firmware download and IRQ init: returns the final
state, the invocations in order, and the logged callback errors. -/
def m4sensorhub_initialize_drain (st : InitState) (ret : Nat → Nat → Int) :
    InitState × List (Nat × Nat) × List Int :=
  drainLoop ret st st.inithead [] [] (st.heap.length + 1)

/-- The nodes reachable from a pointer by following `next`, with fuel. -/
def chainFrom (st : InitState) : Option Nat → Nat → List (Nat × InitCallNode)
  | _, 0 => []
  | none, _ => []
  | some a, fuel + 1 =>
    match hread st a with
    | none => []
    | some n => (a, n) :: chainFrom st n.next fuel

/-- The callback pointers of the nodes currently reachable from `inithead`. -/
def initChainCallbacks (st : InitState) : List Nat :=
  (chainFrom st st.inithead (st.heap.length + 1)).map fun p => p.2.initcb

/-- Fold a list of (callback, context) registrations over the state. -/
def regAll (st : InitState) (rs : List (Nat × Nat)) : InitState :=
  rs.foldl (fun s p => (m4sensorhub_register_initcall s p.1 p.2).2) st

/-- Walking from a pointer reads exactly the given (address, callback,
context) entries and ends at NULL. -/
inductive IsChain (st : InitState) : Option Nat → List (Nat × Nat × Nat) → Prop where
  | nil : IsChain st none []
  | cons {a : Nat} {n : InitCallNode} {rest : List (Nat × Nat × Nat)} :
      hread st a = some n → IsChain st n.next rest →
      IsChain st (some a) ((a, n.initcb, n.pdata) :: rest)

/-- The chain entries produced by registering `rs` in order from the empty
state: addresses descend from `rs.length - 1` to 0, contents are the
registrations in reverse order. -/
def entriesOf (rs : List (Nat × Nat)) : List (Nat × Nat × Nat) :=
  ((List.range rs.length).reverse.zip rs.reverse).map fun p => (p.1, p.2.1, p.2.2)

/-- The errors the drain logs for a chain, given each callback's result. -/
def errsOf (ret : Nat → Nat → Int) (entries : List (Nat × Nat × Nat)) :
    List Int :=
  entries.filterMap fun e =>
    if ret e.2.1 e.2.2 < 0 then some (ret e.2.1 e.2.2) else none

/-! ## Auxiliary definitions for the statements -/

/-- The priority index recorded in an `invoke` action. -/
def invokeIndex : PAction → Option Nat
  | PAction.invoke i _ _ => some i
  | _ => none

/-- A panic registry with no slot populated. -/
def pdEmpty : PanicData := ⟨fun _ => ⟨none, 0⟩⟩

/-- A panic registry with both slots populated. -/
def pdFull : PanicData :=
  ⟨fun i => if i = 0 then ⟨some 7, 70⟩ else ⟨some 8, 80⟩⟩

/-- A hub struct with an empty panic registry. -/
def mEmpty : M4State := ⟨some pdEmpty, M4Mode.NORMALMODE⟩

/-- A hub struct with a fully populated panic registry. -/
def mFull : M4State := ⟨some pdFull, M4Mode.NORMALMODE⟩

/-- A hub struct whose `panicdata` is NULL (before `m4sensorhub_panic_init`
or after `m4sensorhub_panic_shutdown`). -/
def mNoPd : M4State := ⟨none, M4Mode.NORMALMODE⟩

end M4SensorHub

namespace M4SensorHub

/-! ## Theorems -/

/-- C2: when the panic-check transaction returns a byte count different
from 4 or a value different from the magic constant, the process takes the
lock, issues the check, releases the lock and returns: the trace contains
no reset, no firmware reload and no callback invocation, and the struct
(mode and registered panic callbacks included) is returned unchanged. -/
theorem panic_process_false_alarm (m : M4State) (pd : PanicData)
    (busRet fwRet : Int) (busData : Nat) (hpd : m.panicdata = some pd)
    (h : busRet ≠ 4 ∨ busData ≠ PANIC_RESP_CHECK) :
    m4sensorhub_panic_process (some m) busRet busData fwRet =
      ([PAction.lock, PAction.busCheck PANIC_BANK PANIC_CMD_CHECK,
        PAction.unlock], some m) := by
  simp only [m4sensorhub_panic_process, hpd]
  rw [if_pos h]

/-- Witness for C2 at a concrete state and a wrong-length response. -/
theorem panic_process_false_alarm_w :
    m4sensorhub_panic_process (some mEmpty) 3 0 0 =
      ([PAction.lock, PAction.busCheck PANIC_BANK PANIC_CMD_CHECK,
        PAction.unlock], some mEmpty) :=
  panic_process_false_alarm mEmpty pdEmpty 3 0 0 rfl (Or.inl (by decide))

/-- C3: when the panic is confirmed and the firmware reload fails with a
negative result, the process performs the reset, attempts the reload once
and then hits `BUG()`: the trace ends in `bug`, contains exactly one
`loadFirmware` (no retry) and no recovery-callback invocation, and nothing
follows `bug`. -/
theorem panic_process_fw_fail (m : M4State) (pd : PanicData)
    (busRet fwRet : Int) (busData : Nat) (hpd : m.panicdata = some pd)
    (hret : busRet = 4) (hdata : busData = PANIC_RESP_CHECK)
    (hfw : fwRet < 0) :
    (m4sensorhub_panic_process (some m) busRet busData fwRet).1 =
      [PAction.lock, PAction.busCheck PANIC_BANK PANIC_CMD_CHECK,
       PAction.hwReset, PAction.msleep 100, PAction.loadFirmware,
       PAction.bug]
    ∧ (∀ i cb d, PAction.invoke i cb d ∉
        (m4sensorhub_panic_process (some m) busRet busData fwRet).1)
    ∧ (m4sensorhub_panic_process (some m) busRet busData
        fwRet).1.count PAction.loadFirmware = 1
    ∧ (m4sensorhub_panic_process (some m) busRet busData
        fwRet).1.getLast? = some PAction.bug := by
  subst hret hdata
  have htrace : (m4sensorhub_panic_process (some m) 4 PANIC_RESP_CHECK
      fwRet).1 =
      [PAction.lock, PAction.busCheck PANIC_BANK PANIC_CMD_CHECK,
       PAction.hwReset, PAction.msleep 100, PAction.loadFirmware,
       PAction.bug] := by
    simp only [m4sensorhub_panic_process, hpd]
    rw [if_neg (by simp), if_pos hfw]
  refine ⟨htrace, ?_, ?_, ?_⟩
  · intro i cb d
    rw [htrace]
    simp
  · rw [htrace]
    decide
  · rw [htrace]
    decide

/-- C1: when the panic-check transaction returns exactly 4 bytes equal to
the magic constant and the firmware reload succeeds, the process performs
the hardware reset, then the firmware reload, releases the lock and then
invokes every populated Panic Registry slot exactly once, in ascending
priority-index order (so the IRQ-restore slot, the last enum index, runs
after all feature-specific slots), passing each callback the channel
handle and its stored context (recorded in the `invoke` action). -/
theorem panic_process_recovery (m : M4State) (pd : PanicData)
    (busRet fwRet : Int) (busData : Nat) (hpd : m.panicdata = some pd)
    (hret : busRet = 4) (hdata : busData = PANIC_RESP_CHECK)
    (hfw : 0 ≤ fwRet) :
    (m4sensorhub_panic_process (some m) busRet busData fwRet).1 =
      [PAction.lock, PAction.busCheck PANIC_BANK PANIC_CMD_CHECK,
       PAction.hwReset, PAction.msleep 100, PAction.loadFirmware,
       PAction.unlock] ++ panicInvocations pd
    ∧ (panicInvocations pd).filterMap invokeIndex =
        ((List.range PANICHDL_MAX).filter fun i =>
          (pd.funcs i).callback.isSome)
    ∧ (∀ i cb d, i < PANICHDL_MAX → pd.funcs i = ⟨some cb, d⟩ →
        (panicInvocations pd).count (PAction.invoke i cb d) = 1)
    ∧ List.Sorted (· < ·) ((panicInvocations pd).filterMap invokeIndex)
    ∧ ((pd.funcs PANICHDL_IRQ_RESTORE).callback.isSome →
        ((panicInvocations pd).filterMap invokeIndex).getLast? =
          some PANICHDL_IRQ_RESTORE) := by
  subst hret hdata
  have hr : List.range PANICHDL_MAX = [0, 1] := by decide
  have hmax : PANICHDL_MAX = 2 := by decide
  have hirq : PANICHDL_IRQ_RESTORE = 1 := rfl
  rcases h0 : pd.funcs 0 with ⟨c0, d0⟩
  rcases h1 : pd.funcs 1 with ⟨c1, d1⟩
  have hinv : panicInvocations pd =
      (match c0 with
        | none => []
        | some cb => [PAction.invoke 0 cb d0]) ++
      (match c1 with
        | none => []
        | some cb => [PAction.invoke 1 cb d1]) := by
    simp only [panicInvocations, hr, List.filterMap_cons, List.filterMap_nil,
      h0, h1]
    cases c0 <;> cases c1 <;> rfl
  refine ⟨?_, ?_, ?_, ?_, ?_⟩
  · simp only [m4sensorhub_panic_process, hpd]
    rw [if_neg (by simp), if_neg (by omega)]
  · rw [hinv, hr]
    cases c0 <;> cases c1 <;> simp [invokeIndex, h0, h1]
  · intro i cb d hilt hi
    have h2 : i < 2 := hmax ▸ hilt
    have hsplit : i = 0 ∨ i = 1 := by omega
    rcases hsplit with rfl | rfl
    · rw [h0] at hi
      injection hi with hcb hd
      subst hcb
      subst hd
      rw [hinv]
      cases c1 <;>
        simp [List.count_cons, List.count_nil, List.count_append]
    · rw [h1] at hi
      injection hi with hcb hd
      subst hcb
      subst hd
      rw [hinv]
      cases c0 <;>
        simp [List.count_cons, List.count_nil, List.count_append]
  · rw [hinv]
    cases c0 <;> cases c1 <;> simp [invokeIndex]
  · rw [hirq]
    intro hIrq
    rw [h1] at hIrq
    rw [hinv]
    cases c1
    · simp at hIrq
    · cases c0 <;> simp [invokeIndex]

/-- Witness for C1 at a fully populated registry and magic response. -/
theorem panic_process_recovery_w :
    (m4sensorhub_panic_process (some mFull) 4 PANIC_RESP_CHECK 0).1 =
      [PAction.lock, PAction.busCheck PANIC_BANK PANIC_CMD_CHECK,
       PAction.hwReset, PAction.msleep 100, PAction.loadFirmware,
       PAction.unlock] ++ panicInvocations pdFull
    ∧ (panicInvocations pdFull).filterMap invokeIndex =
        ((List.range PANICHDL_MAX).filter fun i =>
          (pdFull.funcs i).callback.isSome) :=
  ⟨(panic_process_recovery mFull pdFull 4 0 PANIC_RESP_CHECK rfl rfl rfl
      (by decide)).1,
   (panic_process_recovery mFull pdFull 4 0 PANIC_RESP_CHECK rfl rfl rfl
      (by decide)).2.1⟩

/-- Witness for C3 at a concrete state, magic response and failing reload. -/
theorem panic_process_fw_fail_w :
    (m4sensorhub_panic_process (some mFull) 4 PANIC_RESP_CHECK (-1)).1 =
      [PAction.lock, PAction.busCheck PANIC_BANK PANIC_CMD_CHECK,
       PAction.hwReset, PAction.msleep 100, PAction.loadFirmware,
       PAction.bug] :=
  (panic_process_fw_fail mFull pdFull 4 (-1) PANIC_RESP_CHECK rfl rfl rfl
    (by decide)).1

/-- C5: for a valid index and non-null callback, registering over an
occupied slot returns `-EPERM` and leaves the whole struct (in particular
the slot's existing callback and context) unchanged, while registering
into an empty slot stores exactly the (callback, context) pair there,
changes no other slot, and returns 0. -/
theorem panic_register_spec (m : M4State) (pd : PanicData) (index cb d : Nat)
    (hpd : m.panicdata = some pd) (hidx : index < PANICHDL_MAX) :
    ((pd.funcs index).callback ≠ none →
      m4sensorhub_panic_register (some m) index (some cb) d =
        some (-EPERM, some m))
    ∧ ((pd.funcs index).callback = none →
      m4sensorhub_panic_register (some m) index (some cb) d =
        some (0, some (M4State.mk
          (some ⟨Function.update pd.funcs index ⟨some cb, d⟩⟩) m.mode))
      ∧ Function.update pd.funcs index ⟨some cb, d⟩ index = ⟨some cb, d⟩
      ∧ ∀ j, j ≠ index →
          Function.update pd.funcs index ⟨some cb, d⟩ j = pd.funcs j) := by
  constructor
  · intro hocc
    simp [m4sensorhub_panic_register, hpd, hocc, Nat.not_le.mpr hidx]
  · intro hemp
    refine ⟨?_, Function.update_same index ⟨some cb, d⟩ pd.funcs,
      fun j hj => Function.update_noteq hj ⟨some cb, d⟩ pd.funcs⟩
    simp [m4sensorhub_panic_register, hpd, hemp, Nat.not_le.mpr hidx]

/-- Witness for C5: an occupied slot rejects with `-EPERM`, an empty slot
accepts with 0, at concrete registries. -/
theorem panic_register_spec_w :
    m4sensorhub_panic_register (some mFull) 0 (some 5) 6 =
      some (-EPERM, some mFull)
    ∧ m4sensorhub_panic_register (some mEmpty) 0 (some 5) 6 =
      some (0, some (M4State.mk
        (some ⟨Function.update pdEmpty.funcs 0 ⟨some 5, 6⟩⟩) mEmpty.mode)) :=
  ⟨(panic_register_spec mFull pdFull 0 5 6 rfl (by decide)).1 (by decide),
   ((panic_register_spec mEmpty pdEmpty 0 5 6 rfl (by decide)).2
      (by decide)).1⟩

/-- C8: for a valid index, unregister clears the slot and returns 0 whether
or not the slot was occupied; running it twice gives the same result and
state as running it once (idempotence), and a register with a valid
non-null callback performed immediately after the unregister succeeds
with return value 0. -/
theorem panic_unregister_spec (m : M4State) (pd : PanicData)
    (index cb d : Nat) (hpd : m.panicdata = some pd)
    (hidx : index < PANICHDL_MAX) :
    m4sensorhub_panic_unregister (some m) index =
      some (0, some (M4State.mk
        (some ⟨Function.update pd.funcs index ⟨none, 0⟩⟩) m.mode))
    ∧ m4sensorhub_panic_unregister
        (some (M4State.mk
          (some ⟨Function.update pd.funcs index ⟨none, 0⟩⟩) m.mode)) index =
      some (0, some (M4State.mk
        (some ⟨Function.update pd.funcs index ⟨none, 0⟩⟩) m.mode))
    ∧ m4sensorhub_panic_register
        (some (M4State.mk
          (some ⟨Function.update pd.funcs index ⟨none, 0⟩⟩) m.mode))
        index (some cb) d =
      some (0, some (M4State.mk
        (some ⟨Function.update pd.funcs index ⟨some cb, d⟩⟩) m.mode)) := by
  refine ⟨?_, ?_, ?_⟩
  · simp [m4sensorhub_panic_unregister, hpd, Nat.not_le.mpr hidx]
  · simp [m4sensorhub_panic_unregister, Nat.not_le.mpr hidx,
      Function.update_idem]
  · simp [m4sensorhub_panic_register, Nat.not_le.mpr hidx,
      Function.update_same, Function.update_idem]

/-- Witness for C8 at a concrete occupied registry and the IRQ slot. -/
theorem panic_unregister_spec_w :
    m4sensorhub_panic_unregister (some mFull) 1 =
      some (0, some (M4State.mk
        (some ⟨Function.update pdFull.funcs 1 ⟨none, 0⟩⟩) mFull.mode))
    ∧ m4sensorhub_panic_register
        (some (M4State.mk
          (some ⟨Function.update pdFull.funcs 1 ⟨none, 0⟩⟩) mFull.mode))
        1 (some 9) 10 =
      some (0, some (M4State.mk
        (some ⟨Function.update pdFull.funcs 1 ⟨some 9, 10⟩⟩) mFull.mode)) :=
  ⟨(panic_unregister_spec mFull pdFull 1 9 10 rfl (by decide)).1,
   (panic_unregister_spec mFull pdFull 1 9 10 rfl (by decide)).2.2⟩

/-- C9: register and unregister validate the struct pointer, the index
bound and (for register) the callback pointer, returning `-EINVAL`, but
dereference `panicdata` without a NULL check (the `none` result models the
crash); when `panicdata` is populated the crash branch is unreachable and
both calls complete, while `m4sensorhub_panic_process` does check
`panicdata` and returns without any action when it is NULL. -/
theorem panic_null_checks :
    (∀ index cb d, m4sensorhub_panic_register none index cb d =
        some (-EINVAL, none))
    ∧ (∀ index, m4sensorhub_panic_unregister none index =
        some (-EINVAL, none))
    ∧ (∀ m index cb d, PANICHDL_MAX ≤ index →
        m4sensorhub_panic_register (some m) index cb d =
          some (-EINVAL, some m))
    ∧ (∀ m index d, index < PANICHDL_MAX →
        m4sensorhub_panic_register (some m) index none d =
          some (-EINVAL, some m))
    ∧ (∀ m index cb d, m.panicdata = none → index < PANICHDL_MAX →
        m4sensorhub_panic_register (some m) index (some cb) d = none)
    ∧ (∀ m index, m.panicdata = none → index < PANICHDL_MAX →
        m4sensorhub_panic_unregister (some m) index = none)
    ∧ (∀ m pd index cb d, m.panicdata = some pd → index < PANICHDL_MAX →
        (m4sensorhub_panic_register (some m) index (some cb) d).isSome)
    ∧ (∀ m pd index, m.panicdata = some pd → index < PANICHDL_MAX →
        (m4sensorhub_panic_unregister (some m) index).isSome)
    ∧ (∀ m busRet busData fwRet, m.panicdata = none →
        m4sensorhub_panic_process (some m) busRet busData fwRet =
          ([], some m)) := by
  refine ⟨?_, ?_, ?_, ?_, ?_, ?_, ?_, ?_, ?_⟩
  · intro index cb d
    simp [m4sensorhub_panic_register]
  · intro index
    simp [m4sensorhub_panic_unregister]
  · intro m index cb d hge
    simp [m4sensorhub_panic_register, hge]
  · intro m index d hlt
    simp [m4sensorhub_panic_register, Nat.not_le.mpr hlt]
  · intro m index cb d hpd hlt
    simp [m4sensorhub_panic_register, hpd, Nat.not_le.mpr hlt]
  · intro m index hpd hlt
    simp [m4sensorhub_panic_unregister, hpd, Nat.not_le.mpr hlt]
  · intro m pd index cb d hpd hlt
    by_cases hc : (pd.funcs index).callback = none <;>
      simp [m4sensorhub_panic_register, hpd, Nat.not_le.mpr hlt, hc]
  · intro m pd index hpd hlt
    simp [m4sensorhub_panic_unregister, hpd, Nat.not_le.mpr hlt]
  · intro m busRet busData fwRet hpd
    simp [m4sensorhub_panic_process, hpd]

/-- Witness for C9: NULL `panicdata` crashes register and unregister but
not process; populated `panicdata` completes. -/
theorem panic_null_checks_w :
    m4sensorhub_panic_register (some mNoPd) 0 (some 3) 4 = none
    ∧ m4sensorhub_panic_unregister (some mNoPd) 0 = none
    ∧ (m4sensorhub_panic_register (some mEmpty) 0 (some 3) 4).isSome
    ∧ m4sensorhub_panic_process (some mNoPd) 4 PANIC_RESP_CHECK 0 =
        ([], some mNoPd) :=
  ⟨panic_null_checks.2.2.2.2.1 mNoPd 0 3 4 rfl (by decide),
   panic_null_checks.2.2.2.2.2.1 mNoPd 0 rfl (by decide),
   panic_null_checks.2.2.2.2.2.2.1 mEmpty pdEmpty 0 3 4 rfl (by decide),
   panic_null_checks.2.2.2.2.2.2.2.2 mNoPd 4 PANIC_RESP_CHECK 0 rfl⟩

/-! ## Init-call registry lemmas -/

/-- Freeing a cell does not change what any pointer dereferences to. -/
lemma hread_kfree (st : InitState) (a b : Nat) :
    hread (kfree st a) b = hread st b := rfl

/-- A chain is preserved by freeing a cell (contents are retained). -/
lemma isChain_kfree {st : InitState} {h : Option Nat}
    {e : List (Nat × Nat × Nat)} (hc : IsChain st h e) (a : Nat) :
    IsChain (kfree st a) h e := by
  induction hc with
  | nil => exact IsChain.nil
  | cons hr _ ih => exact IsChain.cons hr ih

/-- A chain transports to any state that dereferences the same cells the
same way. -/
lemma isChain_mono {st st2 : InitState}
    (hmono : ∀ x k, hread st x = some k → hread st2 x = some k) :
    ∀ {h e}, IsChain st h e → IsChain st2 h e := by
  intro h e hc
  induction hc with
  | nil => exact IsChain.nil
  | cons hr _ ih => exact IsChain.cons (hmono _ _ hr) ih

/-- A successful dereference means the cell is in the heap. -/
lemma hread_some_mem {st : InitState} {b : Nat} {k : InitCallNode}
    (h : hread st b = some k) : (b, k) ∈ st.heap := by
  unfold hread at h
  rcases Option.map_eq_some'.mp h with ⟨pr, hf, hpr⟩
  have hb : pr.1 = b := by
    have := List.find?_some hf
    simpa using this
  have hmem := List.mem_of_find?_eq_some hf
  have : pr = (b, k) := by
    cases pr
    simp only at hb hpr
    subst hb
    subst hpr
    rfl
  rwa [this] at hmem

/-- Running the drain loop along a chain frees exactly the chain's
addresses in order, invokes exactly the chain's (callback, context) pairs
in order, logs exactly the negative results, and changes nothing else in
the state. -/
lemma drainLoop_chain (ret : Nat → Nat → Int)
    (entries : List (Nat × Nat × Nat)) :
    ∀ (st : InitState) (inc : Option Nat) (invoked : List (Nat × Nat))
      (errs : List Int) (fuel : Nat),
    IsChain st inc entries → entries.length ≤ fuel →
    drainLoop ret st inc invoked errs fuel =
      (⟨st.heap, st.freed ++ entries.map fun e => e.1, st.nextAddr,
        st.inithead⟩,
       invoked ++ entries.map fun e => (e.2.1, e.2.2),
       errs ++ errsOf ret entries) := by
  induction entries with
  | nil =>
    intro st inc invoked errs fuel hc hf
    cases hc
    cases fuel with
    | zero => simp [drainLoop, errsOf]
    | succ f => simp [drainLoop, errsOf]
  | cons e rest ih =>
    intro st inc invoked errs fuel hc hf
    cases hc with
    | cons hr hrest =>
      rename_i a n
      cases fuel with
      | zero => simp at hf
      | succ f =>
        have hflen : rest.length ≤ f := by
          simpa using hf
        simp only [drainLoop, hr]
        rw [ih _ _ _ _ f (isChain_kfree hrest a) hflen]
        by_cases hneg : ret n.initcb n.pdata < 0 <;>
          simp [kfree, errsOf, hneg, List.append_assoc]

/-- The drain loop never writes the heap, the allocation counter or the
`inithead` pointer. -/
lemma drainLoop_frame (ret : Nat → Nat → Int) :
    ∀ (fuel : Nat) (st : InitState) (inc : Option Nat)
      (invoked : List (Nat × Nat)) (errs : List Int),
    (drainLoop ret st inc invoked errs fuel).1.inithead = st.inithead
    ∧ (drainLoop ret st inc invoked errs fuel).1.heap = st.heap
    ∧ (drainLoop ret st inc invoked errs fuel).1.nextAddr = st.nextAddr := by
  intro fuel
  induction fuel with
  | zero => intro st inc invoked errs; cases inc <;> exact ⟨rfl, rfl, rfl⟩
  | succ f ih =>
    intro st inc invoked errs
    cases inc with
    | none => exact ⟨rfl, rfl, rfl⟩
    | some a =>
      cases hr : hread st a with
      | none => simp [drainLoop, hr]
      | some n =>
        simp only [drainLoop, hr]
        exact ih (kfree st a) n.next _ _

/-- Addresses already freed stay freed across the drain loop. -/
lemma drainLoop_freed_mono (ret : Nat → Nat → Int) :
    ∀ (fuel : Nat) (st : InitState) (inc : Option Nat)
      (invoked : List (Nat × Nat)) (errs : List Int) (x : Nat),
    x ∈ st.freed → x ∈ (drainLoop ret st inc invoked errs fuel).1.freed := by
  intro fuel
  induction fuel with
  | zero => intro st inc invoked errs x hx; cases inc <;> exact hx
  | succ f ih =>
    intro st inc invoked errs x hx
    cases inc with
    | none => exact hx
    | some a =>
      cases hr : hread st a with
      | none => simpa [drainLoop, hr] using hx
      | some n =>
        simp only [drainLoop, hr]
        exact ih (kfree st a) n.next _ _ x (by simp [kfree, hx])

/-- The conditional the source uses to set the new node's `next` pointer is
just the old head. -/
lemma next_if_eq (o : Option Nat) : (if o = none then none else o) = o := by
  cases o <;> simp

/-- Dereferencing the freshly registered node. -/
lemma hread_register_new (st : InitState) (f p : Nat) :
    hread (m4sensorhub_register_initcall st f p).2 st.nextAddr =
      some ⟨f, p, st.inithead⟩ := by
  simp [m4sensorhub_register_initcall, hread, List.find?, next_if_eq]

/-- Dereferencing any other address is unchanged by a registration. -/
lemma hread_register_old (st : InitState) (f p b : Nat)
    (hb : b ≠ st.nextAddr) :
    hread (m4sensorhub_register_initcall st f p).2 b = hread st b := by
  have hne : (st.nextAddr == b) = false := by
    simp [Ne.symm hb]
  simp [m4sensorhub_register_initcall, hread, List.find?, hne]

/-- Appending one registration prepends one chain entry at the next fresh
address. -/
lemma entriesOf_append (rs : List (Nat × Nat)) (q : Nat × Nat) :
    entriesOf (rs ++ [q]) = (rs.length, q.1, q.2) :: entriesOf rs := by
  simp [entriesOf, List.range_succ]

/-- A chain built from `rs` has one entry per registration. -/
lemma entriesOf_length (rs : List (Nat × Nat)) :
    (entriesOf rs).length = rs.length := by
  simp [entriesOf, List.length_zip]

/-- Invariants of the state reached by registering `rs` from the empty
state: the counter and heap sizes match, nothing is freed, all addresses
are below the counter, and the list from `inithead` is exactly the chain
of registrations in reverse order at descending addresses. -/
lemma regAll_inv (rs : List (Nat × Nat)) :
    (regAll initState rs).nextAddr = rs.length
    ∧ (regAll initState rs).freed = []
    ∧ (regAll initState rs).heap.length = rs.length
    ∧ (∀ pr ∈ (regAll initState rs).heap, pr.1 < rs.length)
    ∧ IsChain (regAll initState rs) (regAll initState rs).inithead
        (entriesOf rs) := by
  induction rs using List.reverseRecOn with
  | nil =>
    refine ⟨rfl, rfl, rfl, ?_, ?_⟩
    · intro pr hpr
      simp [regAll, initState] at hpr
    · exact IsChain.nil
  | append_singleton rs q ih =>
    obtain ⟨hna, hfr, hlen, hbound, hchain⟩ := ih
    have hreg : regAll initState (rs ++ [q]) =
        (m4sensorhub_register_initcall (regAll initState rs) q.1 q.2).2 := by
      simp [regAll, List.foldl_append]
    have hmono : ∀ x k, hread (regAll initState rs) x = some k →
        hread (regAll initState (rs ++ [q])) x = some k := by
      intro x k hx
      have hxlt : x < rs.length := by
        have := hbound _ (hread_some_mem hx)
        simpa using this
      rw [hreg, hread_register_old _ _ _ _ (by omega : x ≠ (regAll initState rs).nextAddr)]
      exact hx
    refine ⟨?_, ?_, ?_, ?_, ?_⟩
    · rw [hreg]
      simp [m4sensorhub_register_initcall, hna]
    · rw [hreg]
      simpa [m4sensorhub_register_initcall] using hfr
    · rw [hreg]
      simpa [m4sensorhub_register_initcall] using hlen
    · intro pr hpr
      rw [hreg] at hpr
      simp only [m4sensorhub_register_initcall, List.mem_cons] at hpr
      rcases hpr with rfl | hpr
      · simp [hna]
      · have := hbound _ hpr
        simp only [List.length_append, List.length_cons, List.length_nil]
        omega
    · rw [entriesOf_append]
      have hhead : (regAll initState (rs ++ [q])).inithead =
          some (regAll initState rs).nextAddr := by
        rw [hreg]
        simp [m4sensorhub_register_initcall]
      rw [hhead, hna]
      refine IsChain.cons (n := ⟨q.1, q.2, (regAll initState rs).inithead⟩)
        ?_ ?_
      · rw [hreg, ← hna]
        exact hread_register_new _ _ _
      · exact isChain_mono hmono hchain

/-- C6: registering prepends, so after any sequence of registrations the
drain invokes every registered (callback, context) node exactly once in
reverse registration order, frees every node (the freed addresses are
exactly the allocated ones, in drain order), and the invocation sequence
does not depend on the callbacks' return values — a negative return does
not stop the drain. -/
theorem initcall_register_drain (rs : List (Nat × Nat))
    (ret ret2 : Nat → Nat → Int) :
    (m4sensorhub_initialize_drain (regAll initState rs) ret).2.1 =
      rs.reverse
    ∧ (∀ q : Nat × Nat,
        ((m4sensorhub_initialize_drain (regAll initState rs) ret).2.1).count
          q = rs.count q)
    ∧ (m4sensorhub_initialize_drain (regAll initState rs) ret).1.freed =
        (List.range rs.length).reverse
    ∧ (m4sensorhub_initialize_drain (regAll initState rs) ret).2.1 =
        (m4sensorhub_initialize_drain (regAll initState rs) ret2).2.1 := by
  obtain ⟨hna, hfr, hlen, hbound, hchain⟩ := regAll_inv rs
  have hfuel : (entriesOf rs).length ≤
      (regAll initState rs).heap.length + 1 := by
    rw [entriesOf_length, hlen]
    omega
  have h1 := drainLoop_chain ret (entriesOf rs) (regAll initState rs)
    (regAll initState rs).inithead [] []
    ((regAll initState rs).heap.length + 1) hchain hfuel
  have h2 := drainLoop_chain ret2 (entriesOf rs) (regAll initState rs)
    (regAll initState rs).inithead [] []
    ((regAll initState rs).heap.length + 1) hchain hfuel
  have hcomp : ((fun e : Nat × Nat × Nat => (e.2.1, e.2.2)) ∘
      fun p : Nat × (Nat × Nat) => (p.1, p.2.1, p.2.2)) =
      Prod.snd := by
    funext p
    rfl
  have hcompf : ((fun e : Nat × Nat × Nat => e.1) ∘
      fun p : Nat × (Nat × Nat) => (p.1, p.2.1, p.2.2)) =
      Prod.fst := by
    funext p
    rfl
  have hmapsnd : (entriesOf rs).map (fun e => (e.2.1, e.2.2)) =
      rs.reverse := by
    simp only [entriesOf, List.map_map, hcomp]
    exact List.map_snd_zip _ _ (by simp)
  have hmapfst : (entriesOf rs).map (fun e => e.1) =
      (List.range rs.length).reverse := by
    simp only [entriesOf, List.map_map, hcompf]
    exact List.map_fst_zip _ _ (by simp)
  unfold m4sensorhub_initialize_drain
  rw [h1, h2]
  refine ⟨?_, ?_, ?_, ?_⟩
  · simpa using hmapsnd
  · intro q
    simp [hmapsnd, List.count_reverse]
  · simp [hfr, hmapfst]
  · simp [hmapsnd]

/-- C10: the drain frees the list nodes but never writes the registry head
pointer `inithead` (nor the heap): after the drain, `inithead` still holds
its old value while the node it points to has been freed, so the registry
is left with a stale head rather than being reset to the empty list. -/
theorem initialize_drain_stale_head (st : InitState) (ret : Nat → Nat → Int)
    (a : Nat) (n : InitCallNode) (ha : st.inithead = some a)
    (hn : hread st a = some n) :
    (m4sensorhub_initialize_drain st ret).1.inithead = st.inithead
    ∧ (m4sensorhub_initialize_drain st ret).1.heap = st.heap
    ∧ a ∈ (m4sensorhub_initialize_drain st ret).1.freed := by
  refine ⟨?_, ?_, ?_⟩
  · exact (drainLoop_frame ret _ st st.inithead [] []).1
  · exact (drainLoop_frame ret _ st st.inithead [] []).2.1
  · unfold m4sensorhub_initialize_drain
    rw [ha]
    simp only [drainLoop, hn]
    apply drainLoop_freed_mono
    simp [kfree]

/-- Witness for C10 at a one-node registry. -/
theorem initialize_drain_stale_head_w :
    (m4sensorhub_initialize_drain (regAll initState [(1, 10)])
      (fun _ _ => 0)).1.inithead = (regAll initState [(1, 10)]).inithead
    ∧ 0 ∈ (m4sensorhub_initialize_drain (regAll initState [(1, 10)])
        (fun _ _ => 0)).1.freed :=
  ⟨(initialize_drain_stale_head (regAll initState [(1, 10)]) (fun _ _ => 0)
      0 ⟨1, 10, none⟩ rfl rfl).1,
   (initialize_drain_stale_head (regAll initState [(1, 10)]) (fun _ _ => 0)
      0 ⟨1, 10, none⟩ rfl rfl).2.2⟩

/-- C7 fails on the code: with the list `[cb 2, cb 1, cb 1]` (head first),
`m4sensorhub_unregister_initcall` with callback 1 frees both matching
nodes but, because `prev` is left pointing at a just-freed node, the
second unlink writes into freed memory and the last matching node stays
linked after the head: the list reachable from `inithead` still contains
callback 1 (through a dangling pointer to a freed cell). -/
theorem unregister_initcall_stale_node :
    initChainCallbacks (regAll initState [(1, 10), (1, 11), (2, 12)]) =
      [2, 1, 1]
    ∧ initChainCallbacks (m4sensorhub_unregister_initcall
        (regAll initState [(1, 10), (1, 11), (2, 12)]) 1) = [2, 1]
    ∧ (m4sensorhub_unregister_initcall
        (regAll initState [(1, 10), (1, 11), (2, 12)]) 1).freed = [1, 0] := by
  decide

end M4SensorHub
